import Mathlib

/-!
Shallow embedding of `examples/02_investigating_dirty_categories.py`.

The script loads the employee-salaries feature table, overlays the
`employee_position_title` column with `underfilled_job_title` via
`Series.fillna`, drops the donor column, fits a `GapEncoder(n_components=10,
random_state=42)` on the dirty column, prints one summary line per latent
topic, and renders a heatmap of the activations of the first 20 rows.

Pandas cells are modelled as `Option String` (`none` is NaN/null), a column as
a list of cells aligned by position, and a table as an association list of
named columns.  The `GapEncoder` itself lives in the external `skrub` library
and is not part of this repository's sources; where a claim depends on its
behaviour, the corresponding definition is modelled from the spec and marked
as such in its doc comment.
-/

/-- A pandas cell: `none` models NaN/null, `some v` a present string value. -/
abbrev Cell := Option String

/-- A pandas column (Series): cells aligned by integer position. -/
abbrev Col := List Cell

/-- Cell-level behaviour of `Series.fillna`: the base value is kept when
present, otherwise the fill value is substituted. -/
def fillCell (base fill : Cell) : Cell :=
  match base with
  | some v => some v
  | none => fill

/-- `base.fillna(fill)` for two index-aligned series: each null cell of
`base` is replaced by the corresponding cell of `fill`. -/
def fillna (base fill : Col) : Col :=
  List.zipWith fillCell base fill

/-- The overlay assignment of the script, line 40:
`X["employee_position_title"] = X["underfilled_job_title"].fillna(X["employee_position_title"])`.
`primary` is `employee_position_title`, `secondary` is `underfilled_job_title`;
note the secondary column is the fillna *base*, so a present secondary value
wins even over a present primary value. -/
def mergedTitle (primary secondary : Col) : Col :=
  fillna secondary primary

/-- A feature table: named columns over a shared row index. -/
structure Table where
  cols : List (String × Col)

/-- Column lookup, `X[name]`; an absent column is modelled as empty. -/
def Table.getCol (t : Table) (name : String) : Col :=
  match t.cols.find? (fun p => p.1 == name) with
  | some p => p.2
  | none => []

/-- Column assignment `X[name] = c` for an existing column: every entry
carrying `name` is replaced by the new cells. -/
def Table.setCol (t : Table) (name : String) (c : Col) : Table :=
  ⟨t.cols.map (fun p => if p.1 == name then (p.1, c) else p)⟩

/-- `X.drop(labels=[name], axis="columns")`: removes the named column. -/
def Table.dropCol (t : Table) (name : String) : Table :=
  ⟨t.cols.filter (fun p => p.1 != name)⟩

/-- The table's column set, in order. -/
def Table.columnNames (t : Table) : List String :=
  t.cols.map Prod.fst

/-- Every column holds exactly `n` cells (pandas tables share one index). -/
def Table.wellFormed (t : Table) (n : Nat) : Prop :=
  ∀ p ∈ t.cols, p.2.length = n

/-- The preprocessing step of the script, lines 40-43: overlay
`employee_position_title` with `underfilled_job_title` (the latter wins when
specified), then drop the donor column. -/
def preprocess (X : Table) : Table :=
  Table.dropCol
    (Table.setCol X "employee_position_title"
      (mergedTitle (X.getCol "employee_position_title")
        (X.getCol "underfilled_job_title")))
    "underfilled_job_title"

/-! Cell-wise description of the overlay, used by the row-level claims. -/

theorem mergedTitle_get (p s : Col) (i : Nat) (hi : i < p.length)
    (hs : i < s.length) :
    (mergedTitle p s).get? i = some (fillCell (s.get ⟨i, hs⟩) (p.get ⟨i, hi⟩)) := by
  unfold mergedTitle fillna
  induction s generalizing p i with
  | nil => exact absurd hs (by simp)
  | cons b bs ih =>
    cases p with
    | nil => exact absurd hi (by simp)
    | cons f fs =>
      cases i with
      | zero => rfl
      | succ j =>
        simpa using ih fs j (by simpa using hi) (by simpa using hs)

/-- C1 counterexample: at a row whose primary value ("Manager") is present and
whose secondary value ("Sr. Manager") is also present, the merged column holds
the secondary value, so the claim "primary non-null implies output equals the
original primary value" is false on the code. -/
theorem C1_counterexample :
    ¬ (∀ (p s : Col) (i : Nat) (v : String),
        p.get? i = some (some v) → (mergedTitle p s).get? i = some (some v)) := by
  intro h
  have hx := h [some "Manager"] [some "Sr. Manager"] 0 "Manager" rfl
  have : (mergedTitle [some "Manager"] [some "Sr. Manager"]).get? 0
      = some (some "Sr. Manager") := rfl
  rw [this] at hx
  simp at hx

/-- C1 (amended): present primary values are preserved only where the
secondary is null: if the primary is non-null and the secondary is null, the
merged column holds the primary value; if the primary is null and the
secondary is non-null, it holds the secondary value. -/
theorem C1_amended (p s : Col) (i : Nat) (hi : i < p.length) (hs : i < s.length) :
    (s.get ⟨i, hs⟩ = none → (mergedTitle p s).get? i = some (p.get ⟨i, hi⟩)) ∧
    (∀ v, p.get ⟨i, hi⟩ = none → s.get ⟨i, hs⟩ = some v →
      (mergedTitle p s).get? i = some (some v)) := by
  refine ⟨fun hnull => ?_, fun v _ hsv => ?_⟩
  · rw [mergedTitle_get p s i hi hs, hnull]
    rfl
  · rw [mergedTitle_get p s i hi hs, hsv]
    rfl

/-- C1 witness: the amended statement evaluated on the spec's own scenario
(primary ["Manager", null], secondary ["Sr. Manager", null]): at row 1 both
clauses apply concretely. -/
theorem C1_amended_witness :
    (([some "Sr. Manager", none] : Col).get ⟨1, by decide⟩ = none →
      (mergedTitle [some "Manager", none] [some "Sr. Manager", none]).get? 1
        = some (([some "Manager", none] : Col).get ⟨1, by decide⟩)) ∧
    (∀ v, (([some "Manager", none] : Col).get ⟨1, by decide⟩ = none →
      ([some "Sr. Manager", none] : Col).get ⟨1, by decide⟩ = some v →
      (mergedTitle [some "Manager", none] [some "Sr. Manager", none]).get? 1
        = some (some v))) :=
  C1_amended [some "Manager", none] [some "Sr. Manager", none] 1
    (by decide) (by decide)

/-- C2: the overlay assignment computes `secondary.fillna(primary)`, so the
merged value equals the secondary value whenever the secondary is non-null
(even when the primary is also present), and falls back to the primary value
exactly where the secondary is null. -/
theorem C2_overlay_semantics (p s : Col) (i : Nat) (hi : i < p.length)
    (hs : i < s.length) :
    (∀ v, s.get ⟨i, hs⟩ = some v → (mergedTitle p s).get? i = some (some v)) ∧
    (s.get ⟨i, hs⟩ = none → (mergedTitle p s).get? i = some (p.get ⟨i, hi⟩)) := by
  refine ⟨fun v hsv => ?_, fun hnull => ?_⟩
  · rw [mergedTitle_get p s i hi hs, hsv]
    rfl
  · rw [mergedTitle_get p s i hi hs, hnull]
    rfl

/-- C2 witness: at row 0 of the spec's scenario the secondary "Sr. Manager"
is present and overrides the present primary "Manager". -/
theorem C2_overlay_semantics_witness :
    (∀ v, ([some "Sr. Manager", some "Firefighter"] : Col).get ⟨0, by decide⟩
        = some v →
      (mergedTitle [some "Manager", none]
        [some "Sr. Manager", some "Firefighter"]).get? 0 = some (some v)) ∧
    (([some "Sr. Manager", some "Firefighter"] : Col).get ⟨0, by decide⟩ = none →
      (mergedTitle [some "Manager", none]
        [some "Sr. Manager", some "Firefighter"]).get? 0
        = some (([some "Manager", none] : Col).get ⟨0, by decide⟩)) :=
  C2_overlay_semantics [some "Manager", none]
    [some "Sr. Manager", some "Firefighter"] 0 (by decide) (by decide)

/-! The encoder.  `skrub.GapEncoder` is code this repository imports but does
not contain under src/, so its contract is modelled from the spec. -/

/-- Configuration of the encoder, script line 61:
`GapEncoder(n_components=10, random_state=42)`. -/
structure GapEncoderConfig where
  n_components : Nat
  random_state : Nat

/-- Modelled from the spec: the missing `skrub.GapEncoder` internals.  An
activation is a non-negative score of one observation on one latent topic,
a deterministic function of the raw string, the topic index and the seed
(the spec fixes all stochastic initialization through `random_state`).  The
factorization algorithm itself is out of scope; any deterministic scoring
stands for it. -/
def activation (seed : Nat) (s : String) (topic : Nat) : Nat :=
  (s.length * (topic + 1) + seed) % 101

/-- Modelled from the spec: the missing `GapEncoder.fit_transform`.  It
returns a dense matrix with one row per input observation and one column of
activations per latent topic. -/
def fit_transform (cfg : GapEncoderConfig) (col : List String) :
    List (List Nat) :=
  col.map (fun s => (List.range cfg.n_components).map (activation cfg.random_state s))

/-- Modelled from the spec: the missing `GapEncoder.transform`.  The spec
makes every component a pure function of its inputs, so transforming through
a fitted encoder is the same deterministic map as `fit_transform`. -/
def transform (cfg : GapEncoderConfig) (col : List String) :
    List (List Nat) :=
  fit_transform cfg col

/-- Modelled from the spec: the missing `GapEncoder.get_feature_names_out`
(the spec's `label_summary`).  It returns one label-group per latent topic,
each of exactly `n_labels` strings drawn from the input data; the internal
representativeness ranking is explicitly out of scope (spec section 9), so
the groups are modelled as input-order prefixes padded to the required
length. -/
def get_feature_names_out (cfg : GapEncoderConfig) (col : List String)
    (n_labels : Nat) : List (List String) :=
  (List.range cfg.n_components).map
    (fun _t => (col ++ List.replicate n_labels "").take n_labels)

/-! The Activation Visualizer, script lines 95-101. -/

/-- Script line 95: `encoded_labels = enc.transform(X_dirty[:20])` — the
encoded matrix of the bounded sample; Python slicing clips silently. -/
def encoded_labels (cfg : GapEncoderConfig) (xdirty : List String) :
    List (List Nat) :=
  transform cfg (xdirty.take 20)

/-- Script line 101: the tick positions passed to `plt.yticks` are the
hard-coded `range(0, 20)`. -/
def ytickPositions : List Nat :=
  List.range 20

/-- Script line 101: the tick labels passed to `plt.yticks` are
`X_dirty[:20].to_numpy().flatten()`, the raw values of the bounded sample. -/
def ytickLabels (xdirty : List String) : List String :=
  xdirty.take 20

/-- Matplotlib's contract for `yticks(positions, labels)`: the call succeeds
only when the two lists have equal length, otherwise it raises. -/
def yticksCall (xdirty : List String) : Except String Unit :=
  if ytickPositions.length = (ytickLabels xdirty).length then
    Except.ok ()
  else
    Except.error "number of tick locations does not match number of labels"

/-- C3 counterexample: with a dirty column of 15 rows and the bound B = 20,
the bounded sample does clip to 15 rows, but the vertical axis does not get
15 ticks: the script passes the hard-coded 20 tick positions, and the yticks
call fails on the 20-versus-15 mismatch. -/
theorem C3_counterexample :
    (List.replicate 15 "x").length = 15 ∧
    (encoded_labels ⟨10, 42⟩ (List.replicate 15 "x")).length = 15 ∧
    ytickPositions.length ≠ 15 ∧
    yticksCall (List.replicate 15 "x")
      = Except.error "number of tick locations does not match number of labels" := by
  refine ⟨by decide, ?_, by decide, rfl⟩
  simp [encoded_labels, transform, fit_transform]

/-- C3 (amended): the encoded matrix is computed for the first min(B, N)
rows only (slicing clips silently), but the vertical tick positions are the
hard-coded `range(0, 20)`: there are always exactly B = 20 tick positions
while the label list has min(B, N) entries, so when B exceeds N the yticks
call fails on the length mismatch instead of rendering N ticks. -/
theorem C3_amended (cfg : GapEncoderConfig) (xdirty : List String) :
    (encoded_labels cfg xdirty).length = min 20 xdirty.length ∧
    ytickPositions.length = 20 ∧
    (ytickLabels xdirty).length = min 20 xdirty.length ∧
    (xdirty.length < 20 →
      yticksCall xdirty
        = Except.error "number of tick locations does not match number of labels") := by
  refine ⟨?_, by decide, ?_, fun hlt => ?_⟩
  · simp [encoded_labels, transform, fit_transform]
  · simp [ytickLabels]
  · have hy : (ytickLabels xdirty).length = xdirty.length := by
      simp [ytickLabels, Nat.min_eq_right (Nat.le_of_lt hlt)]
    have hne : ytickPositions.length ≠ (ytickLabels xdirty).length := by
      rw [hy]
      simpa [ytickPositions] using Nat.ne_of_gt hlt
    simp [yticksCall, hne]

/-- C3 witness: the amended statement at a concrete 15-row column. -/
theorem C3_amended_witness :
    (encoded_labels ⟨10, 42⟩ (List.replicate 15 "x")).length
        = min 20 (List.replicate 15 "x").length ∧
    ytickPositions.length = 20 ∧
    (ytickLabels (List.replicate 15 "x")).length
        = min 20 (List.replicate 15 "x").length ∧
    ((List.replicate 15 "x").length < 20 →
      yticksCall (List.replicate 15 "x")
        = Except.error "number of tick locations does not match number of labels") :=
  C3_amended ⟨10, 42⟩ (List.replicate 15 "x")

/-- C4: `fit_transform` on N rows returns a matrix with exactly N rows and
exactly `n_components` columns, for every N ≥ 1 and every configured
`n_components` ≥ 1; likewise `transform` on the bounded sample returns
min(20, N) rows of `n_components` columns. -/
theorem C4_shape (cfg : GapEncoderConfig) (col : List String)
    (_hN : 1 ≤ col.length) (_hc : 1 ≤ cfg.n_components) :
    (fit_transform cfg col).length = col.length ∧
    (∀ row ∈ fit_transform cfg col, row.length = cfg.n_components) ∧
    (transform cfg (col.take 20)).length = min 20 col.length ∧
    (∀ row ∈ transform cfg (col.take 20), row.length = cfg.n_components) := by
  refine ⟨by simp [fit_transform], ?_, by simp [transform, fit_transform], ?_⟩
  · intro row hrow
    simp only [fit_transform, List.mem_map] at hrow
    obtain ⟨s, _, hrw⟩ := hrow
    simp [← hrw]
  · intro row hrow
    simp only [transform, fit_transform, List.mem_map] at hrow
    obtain ⟨s, _, hrw⟩ := hrow
    simp [← hrw]

/-- C4 witness: the shape statement at the script's configuration
(10 components, seed 42) on a concrete one-row column. -/
theorem C4_shape_witness :
    (fit_transform ⟨10, 42⟩ ["Manager"]).length = (["Manager"] : List String).length ∧
    (∀ row ∈ fit_transform ⟨10, 42⟩ ["Manager"], row.length = (10 : Nat)) ∧
    (transform ⟨10, 42⟩ ((["Manager"] : List String).take 20)).length
        = min 20 (["Manager"] : List String).length ∧
    (∀ row ∈ transform ⟨10, 42⟩ ((["Manager"] : List String).take 20),
      row.length = (10 : Nat)) :=
  C4_shape ⟨10, 42⟩ ["Manager"] (by decide) (by decide)

/-- C5: `get_feature_names_out` with `n_labels = k` returns exactly
`n_components` label-groups, each an ordered sequence of exactly k strings,
for every k ≥ 1. -/
theorem C5_label_summary (cfg : GapEncoderConfig) (col : List String)
    (k : Nat) (_hk : 1 ≤ k) :
    (get_feature_names_out cfg col k).length = cfg.n_components ∧
    ∀ g ∈ get_feature_names_out cfg col k, g.length = k := by
  refine ⟨by simp [get_feature_names_out], ?_⟩
  intro g hg
  simp only [get_feature_names_out, List.mem_map] at hg
  obtain ⟨t, _, hgw⟩ := hg
  rw [← hgw]
  simp [List.length_take]

/-- C5 witness: the label-summary shape at the script's call
`get_feature_names_out(n_labels=3)` on a concrete two-value column. -/
theorem C5_label_summary_witness :
    (get_feature_names_out ⟨10, 42⟩ ["Manager", "Firefighter"] 3).length = (10 : Nat) ∧
    ∀ g ∈ get_feature_names_out ⟨10, 42⟩ ["Manager", "Firefighter"] 3,
      g.length = (3 : Nat) :=
  C5_label_summary ⟨10, 42⟩ ["Manager", "Firefighter"] 3 (by decide)

/-! The Topic Reporter, script lines 82-84. -/

/-- The f-string of script line 84, built by concatenation:
`f"Topic n°{k}: {labels}"` with Python's list display for the group. -/
def formatLine (k : Nat) (labels : List String) : String :=
  "Topic n°" ++ toString k ++ ": [" ++ String.intercalate ", " labels ++ "]"

/-- Script lines 83-84: `for k, labels in enumerate(topic_labels): print(...)`
— one formatted line per topic, in enumeration order. -/
def reportLines (topic_labels : List (List String)) : List String :=
  topic_labels.enum.map (fun p => formatLine p.1 p.2)

/-- C6: the Topic Reporter emits exactly one line per latent topic, in
topic-index order starting at 0, each of the form `Topic n°{index}: {group}`
where the group is the one the fitted encoder returned for that index. -/
theorem C6_report_lines (cfg : GapEncoderConfig) (col : List String) (k : Nat) :
    (reportLines (get_feature_names_out cfg col k)).length = cfg.n_components ∧
    ∀ i (hi : i < (get_feature_names_out cfg col k).length),
      (reportLines (get_feature_names_out cfg col k)).get? i
        = some (formatLine i ((get_feature_names_out cfg col k).get ⟨i, hi⟩)) := by
  refine ⟨by simp [reportLines, get_feature_names_out], ?_⟩
  intro i hi
  simp [reportLines, List.getElem?_map, List.getElem?_enum,
    List.getElem?_eq_getElem hi]

/-- C6 witness: the reporter statement at the script's configuration on a
concrete column, with the index bound discharged at topic 0. -/
theorem C6_report_lines_witness :
    (reportLines (get_feature_names_out ⟨10, 42⟩ ["Manager"] 3)).length = (10 : Nat) ∧
    (reportLines (get_feature_names_out ⟨10, 42⟩ ["Manager"] 3)).get? 0
      = some (formatLine 0
          ((get_feature_names_out ⟨10, 42⟩ ["Manager"] 3).get ⟨0, by decide⟩)) :=
  ⟨(C6_report_lines ⟨10, 42⟩ ["Manager"] 3).1,
    (C6_report_lines ⟨10, 42⟩ ["Manager"] 3).2 0 (by decide)⟩

/-! Correspondence of reporter indices and visualizer axis, lines 82 and 99. -/

/-- Script line 99: the positions passed to `plt.xticks` are `range(0, 10)`. -/
def xtickPositions : List Nat :=
  List.range 10

/-- The topic indices the reporter enumerates over (line 83). -/
def reporterIndices (topic_labels : List (List String)) : List Nat :=
  topic_labels.enum.map Prod.fst

/-- C7: for label-groups taken from one fitted encoder with 10 components,
the reporter's topic indices and the visualization's horizontal tick
positions are the same sequence 0..9: same order (0 first) and equal count,
one tick per topic. -/
theorem C7_axis_correspondence (cfg : GapEncoderConfig) (col : List String)
    (k : Nat) (h10 : cfg.n_components = 10) :
    reporterIndices (get_feature_names_out cfg col k) = xtickPositions ∧
    xtickPositions = List.range 10 ∧
    (reporterIndices (get_feature_names_out cfg col k)).length
      = xtickPositions.length := by
  have hidx : reporterIndices (get_feature_names_out cfg col k)
      = List.range cfg.n_components := by
    simp [reporterIndices, List.enum_map_fst, get_feature_names_out]
  refine ⟨?_, rfl, ?_⟩
  · rw [hidx, h10]
    rfl
  · rw [hidx, h10]
    rfl

/-- C7 witness: the correspondence at the script's configuration. -/
theorem C7_axis_correspondence_witness :
    reporterIndices (get_feature_names_out ⟨10, 42⟩ ["Manager"] 3)
        = xtickPositions ∧
    xtickPositions = List.range 10 ∧
    (reporterIndices (get_feature_names_out ⟨10, 42⟩ ["Manager"] 3)).length
        = xtickPositions.length :=
  C7_axis_correspondence ⟨10, 42⟩ ["Manager"] 3 rfl

/-! Frame lemmas for the preprocessing step (claim C8). -/

theorem find?_filter_ne (l : List (String × Col)) (name other : String)
    (h : name ≠ other) :
    (l.filter (fun p => p.1 != other)).find? (fun p => p.1 == name)
      = l.find? (fun p => p.1 == name) := by
  induction l with
  | nil => rfl
  | cons p ps ih =>
    rw [List.filter_cons]
    by_cases hpo : p.1 = other
    · have hb : (p.1 != other) = false := by simp [hpo]
      have h2 : (p.1 == name) = false := by
        refine beq_eq_false_iff_ne.mpr (fun hh => h ?_)
        rw [← hh, hpo]
      rw [hb, if_neg (by simp), ih, List.find?_cons, h2]
    · have hb : (p.1 != other) = true := by simp [hpo]
      rw [hb, if_pos rfl, List.find?_cons, List.find?_cons]
      cases h2 : (p.1 == name) with
      | true => rfl
      | false => exact ih

theorem find?_setMap_ne (l : List (String × Col)) (name other : String)
    (c : Col) (h : name ≠ other) :
    (l.map (fun p => if p.1 == other then (p.1, c) else p)).find?
        (fun p => p.1 == name)
      = l.find? (fun p => p.1 == name) := by
  induction l with
  | nil => rfl
  | cons p ps ih =>
    rw [List.map_cons]
    by_cases hpo : p.1 = other
    · have hb : (p.1 == other) = true := beq_iff_eq.mpr hpo
      have h2 : (p.1 == name) = false := by
        refine beq_eq_false_iff_ne.mpr (fun hh => h ?_)
        rw [← hh, hpo]
      rw [hb, if_pos rfl, List.find?_cons, List.find?_cons]
      have h2' : ((p.1, c).1 == name) = false := h2
      rw [h2']
      exact ih
    · have hb : (p.1 == other) = false := beq_eq_false_iff_ne.mpr hpo
      rw [hb, if_neg (by simp), List.find?_cons, List.find?_cons]
      cases h2 : (p.1 == name) with
      | true => rfl
      | false => exact ih

theorem getCol_dropCol_ne (t : Table) (name other : String) (h : name ≠ other) :
    (t.dropCol other).getCol name = t.getCol name := by
  simp only [Table.getCol, Table.dropCol]
  rw [find?_filter_ne t.cols name other h]

theorem getCol_setCol_ne (t : Table) (name other : String) (c : Col)
    (h : name ≠ other) :
    (t.setCol other c).getCol name = t.getCol name := by
  simp only [Table.getCol, Table.setCol]
  rw [find?_setMap_ne t.cols name other c h]

theorem dropCol_not_mem (t : Table) (name : String) :
    name ∉ (t.dropCol name).columnNames := by
  intro hmem
  simp only [Table.dropCol, Table.columnNames, List.mem_map,
    List.mem_filter] at hmem
  obtain ⟨p, ⟨_, hkeep⟩, hfst⟩ := hmem
  rw [hfst] at hkeep
  simp at hkeep

theorem getCol_length_of_mem (t : Table) (n : Nat) (hw : t.wellFormed n)
    (name : String) (hmem : name ∈ t.columnNames) :
    (t.getCol name).length = n := by
  simp only [Table.columnNames, List.mem_map] at hmem
  obtain ⟨p, hp, hfst⟩ := hmem
  have hfind : (t.cols.find? (fun q => q.1 == name)).isSome := by
    rw [List.find?_isSome]
    exact ⟨p, hp, by simp [hfst]⟩
  obtain ⟨q, hq⟩ := Option.isSome_iff_exists.mp hfind
  have hqmem := List.mem_of_find?_eq_some hq
  simp only [Table.getCol, hq]
  exact hw q hqmem

/-- C8: after preprocessing, the donor column `underfilled_job_title` is
absent from the column set, no rows are created or removed (every remaining
column still holds exactly the original n cells), and every column other
than the two involved is untouched. -/
theorem C8_frame (X : Table) (n : Nat) (hw : X.wellFormed n)
    (hp : "employee_position_title" ∈ X.columnNames)
    (hs : "underfilled_job_title" ∈ X.columnNames) :
    "underfilled_job_title" ∉ (preprocess X).columnNames ∧
    (preprocess X).wellFormed n ∧
    ∀ name, name ≠ "employee_position_title" →
      name ≠ "underfilled_job_title" →
      (preprocess X).getCol name = X.getCol name := by
  refine ⟨dropCol_not_mem _ _, ?_, fun name hne hns => ?_⟩
  · have hlp : (X.getCol "employee_position_title").length = n :=
      getCol_length_of_mem X n hw _ hp
    have hls : (X.getCol "underfilled_job_title").length = n :=
      getCol_length_of_mem X n hw _ hs
    intro p hpmem
    simp only [preprocess, Table.dropCol, Table.setCol,
      List.mem_filter, List.mem_map] at hpmem
    obtain ⟨⟨q, hq, hfq⟩, _⟩ := hpmem
    by_cases hq1 : q.1 = "employee_position_title"
    · rw [if_pos (by simp [hq1])] at hfq
      rw [← hfq]
      simp [mergedTitle, fillna, List.length_zipWith, hlp, hls]
    · rw [if_neg (by simp [hq1])] at hfq
      rw [← hfq]
      exact hw q hq
  · unfold preprocess
    rw [getCol_dropCol_ne _ name _ hns, getCol_setCol_ne _ name _ _ hne]

/-- C8 witness: the frame statement on the spec's concrete scenario table
extended with an untouched `gender` column of the same two rows. -/
theorem C8_frame_witness :
    "underfilled_job_title" ∉
      (preprocess ⟨[("employee_position_title", [some "Manager", none]),
        ("underfilled_job_title", [some "Sr. Manager", some "Firefighter"]),
        ("gender", [some "F", some "M"])]⟩).columnNames ∧
    (preprocess ⟨[("employee_position_title", [some "Manager", none]),
        ("underfilled_job_title", [some "Sr. Manager", some "Firefighter"]),
        ("gender", [some "F", some "M"])]⟩).wellFormed 2 ∧
    ∀ name, name ≠ "employee_position_title" →
      name ≠ "underfilled_job_title" →
      (preprocess ⟨[("employee_position_title", [some "Manager", none]),
        ("underfilled_job_title", [some "Sr. Manager", some "Firefighter"]),
        ("gender", [some "F", some "M"])]⟩).getCol name
        = (⟨[("employee_position_title", [some "Manager", none]),
            ("underfilled_job_title", [some "Sr. Manager", some "Firefighter"]),
            ("gender", [some "F", some "M"])]⟩ : Table).getCol name :=
  C8_frame ⟨[("employee_position_title", [some "Manager", none]),
      ("underfilled_job_title", [some "Sr. Manager", some "Firefighter"]),
      ("gender", [some "F", some "M"])]⟩ 2
    (by intro p hp; fin_cases hp <;> rfl) (by decide) (by decide)

/-- C9: two encoders constructed with the same configuration and fit on the
same data are indistinguishable: `random_state` (together with
`n_components`) fixes all internal stochastic initialization, so encoded
matrices and label-groups agree across the two instances. -/
theorem C9_deterministic (e1 e2 : GapEncoderConfig)
    (h1 : e1.n_components = e2.n_components)
    (h2 : e1.random_state = e2.random_state)
    (col : List String) (k : Nat) :
    fit_transform e1 col = fit_transform e2 col ∧
    transform e1 col = transform e2 col ∧
    get_feature_names_out e1 col k = get_feature_names_out e2 col k := by
  obtain ⟨a, b⟩ := e1
  obtain ⟨c, d⟩ := e2
  simp only at h1 h2
  subst h1
  subst h2
  exact ⟨rfl, rfl, rfl⟩

/-- C9 witness: two encoders, both configured with 10 components and seed 42
as in the script, agree on a concrete column with 3 labels per topic. -/
theorem C9_deterministic_witness :
    fit_transform ⟨10, 42⟩ ["Manager", "Firefighter"]
        = fit_transform ⟨10, 42⟩ ["Manager", "Firefighter"] ∧
    transform ⟨10, 42⟩ ["Manager", "Firefighter"]
        = transform ⟨10, 42⟩ ["Manager", "Firefighter"] ∧
    get_feature_names_out ⟨10, 42⟩ ["Manager", "Firefighter"] 3
        = get_feature_names_out ⟨10, 42⟩ ["Manager", "Firefighter"] 3 :=
  C9_deterministic ⟨10, 42⟩ ⟨10, 42⟩ rfl rfl ["Manager", "Firefighter"] 3

/-! The whole script as a straight-line pipeline over fallible collaborators
(claim C10).  Each stage is bound directly to the next; the script contains
no try/except, so the model contains no handler, retry or fallback. -/

/-- The script, top to bottom: fetch the dataset, preprocess, fit-transform
the dirty column, summarize the topics, report, transform the bounded sample
and render.  Every collaborator that can fail is passed in as an
`Except`-returning operation, and its failure is never caught. -/
def pipeline (fetch : Except String Table)
    (fit_transform_op : Table → Except String (List (List Nat)))
    (feature_names_op : Except String (List (List String)))
    (transform_op : Table → Except String (List (List Nat)))
    (render : List (List Nat) → List String → Except String Unit) :
    Except String (List String) := do
  let X ← fetch
  let X1 := preprocess X
  let _X_enc ← fit_transform_op X1
  let topic_labels ← feature_names_op
  let lines := reportLines topic_labels
  let encoded ← transform_op X1
  let _ ← render encoded lines
  pure lines

/-- C10: the pipeline performs no local error recovery: whichever
collaborator fails first (dataset fetch, fit-transform, label summary,
bounded transform, or rendering), its error propagates unchanged to the
caller and terminates the procedure; there is no retry, fallback or
partial-failure handling. -/
theorem C10_error_propagation (e : String) (X : Table)
    (m m2 : List (List Nat)) (tl : List (List String))
    (fto : Table → Except String (List (List Nat)))
    (fno : Except String (List (List String)))
    (tro : Table → Except String (List (List Nat)))
    (rnd : List (List Nat) → List String → Except String Unit) :
    pipeline (Except.error e) fto fno tro rnd = Except.error e ∧
    pipeline (Except.ok X) (fun _ => Except.error e) fno tro rnd
      = Except.error e ∧
    pipeline (Except.ok X) (fun _ => Except.ok m) (Except.error e) tro rnd
      = Except.error e ∧
    pipeline (Except.ok X) (fun _ => Except.ok m) (Except.ok tl)
      (fun _ => Except.error e) rnd = Except.error e ∧
    pipeline (Except.ok X) (fun _ => Except.ok m) (Except.ok tl)
      (fun _ => Except.ok m2) (fun _ _ => Except.error e) = Except.error e :=
  ⟨rfl, rfl, rfl, rfl, rfl⟩
